import Mathlib

/-!
Verification of the PixEagle control/orchestration layer.

Shallow embedding of `src/classes/followers/front_view_target_follower.py`
and `src/classes/app_controller.py` over the rationals.  Machine floats are
modelled by `ℚ`; the transcendental helpers (`math.sqrt`, `math.cos`,
`math.sin`) are abstracted into a `MathEnv` record of rational functions,
since no claim depends on their concrete values.  Fallible flight-link calls
are modelled as `Except String` results; a Python exception escaping a
function is an `Except.error` result of the embedded function.
-/

namespace PixEagle

/-- Control strategy, `Parameters.CONTROL_STRATEGY` in the source. -/
inductive Strategy where
  | constant_altitude
  | constant_distance
deriving DecidableEq

/-- Target position mode, `Parameters.TARGET_POSITION_MODE` in the source. -/
inductive TargetMode where
  | initial
  | fixed
deriving DecidableEq

/-- A PID gain triple (p, i, d) as stored in `Parameters.PID_GAINS[axis]`. -/
structure Gains where
  p : ℚ
  i : ℚ
  d : ℚ
deriving DecidableEq

/-- Per-axis gain table: the value of `Parameters.PID_GAINS` or of one
altitude-schedule entry (a dict from axis name to gains in the source). -/
structure AxisGains where
  x : Gains
  y : Gains
  z : Gains
deriving DecidableEq

/-- The three control axes indexing gain tables. -/
inductive Axis where
  | x
  | y
  | z
deriving DecidableEq

/-- Dictionary lookup `gains[axis]` of the source. -/
def AxisGains.get (g : AxisGains) : Axis → Gains
  | .x => g.x
  | .y => g.y
  | .z => g.z

/-- The `Parameters.VELOCITY_LIMITS` dict of the source. -/
structure VelocityLimits where
  x : ℚ
  y : ℚ
  z : ℚ
deriving DecidableEq

/-- The configuration constants of `classes/parameters.py` that the embedded
code reads (field names follow the source). -/
structure Parameters where
  CONTROL_STRATEGY : Strategy
  TARGET_POSITION_MODE : TargetMode
  DESIRE_AIM : ℚ × ℚ
  VELOCITY_LIMITS : VelocityLimits
  MAX_RATE_OF_DESCENT : ℚ
  MIN_DESCENT_HEIGHT : ℚ
  ENABLE_DESCEND_TO_TARGET : Bool
  ENABLE_GAIN_SCHEDULING : Bool
  ALTITUDE_GAIN_SCHEDULE : List ((ℚ × ℚ) × AxisGains)
  PID_GAINS : AxisGains
  IS_CAMERA_GIMBALED : Bool
  BASE_ADJUSTMENT_FACTOR_X : ℚ
  BASE_ADJUSTMENT_FACTOR_Y : ℚ
  ALTITUDE_FACTOR : ℚ
  DEFAULT_DISTANCE : ℚ
  mavlink_enabled : Bool

/-- Telemetry read off the PX4 controller object: `current_altitude`,
`get_orientation()` as (yaw, pitch, roll), and the result of
`getattr(px4, Parameters.GAIN_SCHEDULING_PARAMETER, None)`. -/
structure PX4State where
  current_altitude : ℚ
  orientation : ℚ × ℚ × ℚ
  sched_value : Option ℚ
deriving DecidableEq

/-- Abstract stand-ins for `math.sqrt`, `math.cos`, `math.sin` over `ℚ`. -/
structure MathEnv where
  sqrt : ℚ → ℚ
  cos : ℚ → ℚ
  sin : ℚ → ℚ

/-- State of one `CustomPID` controller instance: tunings, setpoint,
output limits, integral accumulator and last error. -/
structure PIDState where
  tunings : Gains
  setpoint : ℚ
  out_min : ℚ
  out_max : ℚ
  integral : ℚ
  last_error : ℚ
deriving DecidableEq

/-- Modelled from the spec: the unclamped output of one `CustomPID`
evaluation (`classes/followers/custom_pid.py` is not under `src/`).
Discrete PID with unit time step: proportional plus updated integral plus
derivative on the error difference. -/
def pid_raw (s : PIDState) (e : ℚ) : ℚ :=
  s.tunings.p * e + (s.integral + s.tunings.i * e) + s.tunings.d * (e - s.last_error)

/-- Modelled from the spec: one `CustomPID.__call__` evaluation
(`classes/followers/custom_pid.py` is not under `src/`).  Per spec section
4.1 step 6: every evaluation clamps its output to the configured limits and
the integral term is frozen while the output is clamped. -/
def pid_call (s : PIDState) (e : ℚ) : ℚ × PIDState :=
  if pid_raw s e < s.out_min then (s.out_min, { s with last_error := e })
  else if s.out_max < pid_raw s e then (s.out_max, { s with last_error := e })
  else (pid_raw s e, { s with integral := s.integral + s.tunings.i * e, last_error := e })

/-- State of a `FrontViewTargetFollower` instance: the configuration copied
at construction, the three PID controllers and the `latest_velocities`
telemetry snapshot. -/
structure FollowerState where
  control_strategy : Strategy
  initial_target_coords : ℚ × ℚ
  default_distance : ℚ
  pid_x : PIDState
  pid_y : PIDState
  pid_z : PIDState
  latest_velocities : Option (ℚ × ℚ × ℚ)
deriving DecidableEq

/-- First matching entry of the `for (lower, upper), gains in
Parameters.ALTITUDE_GAIN_SCHEDULE.items()` loop in `get_pid_gains`. -/
def find_schedule_gains (sched : List ((ℚ × ℚ) × AxisGains)) (v : ℚ) : Option AxisGains :=
  match sched with
  | [] => none
  | ((lo, hi), g) :: rest =>
      if lo ≤ v ∧ v < hi then some g else find_schedule_gains rest v

/-- `FrontViewTargetFollower.get_pid_gains`: gain-scheduled lookup with
fallback to the static `Parameters.PID_GAINS` table. -/
def get_pid_gains (cfg : Parameters) (px4 : PX4State) (axis : Axis) : Gains :=
  if cfg.ENABLE_GAIN_SCHEDULING then
    match px4.sched_value with
    | none => cfg.PID_GAINS.get axis
    | some v =>
        match find_schedule_gains cfg.ALTITUDE_GAIN_SCHEDULE v with
        | some g => g.get axis
        | none => cfg.PID_GAINS.get axis
  else
    cfg.PID_GAINS.get axis

/-- `FrontViewTargetFollower.initialize_pids`: builds the (pid_x, pid_y,
pid_z) controllers from the strategy and the initial target coordinates.
Note the cross assignment of the source: `pid_y` receives `setpoint_x` and,
under constant_altitude, `pid_x` receives `setpoint_y`. -/
def initialize_pids (cfg : Parameters) (px4 : PX4State) (strategy : Strategy)
    (coords : ℚ × ℚ) : PIDState × PIDState × PIDState :=
  let sx := coords.1
  let sy := coords.2
  let py : PIDState :=
    { tunings := get_pid_gains cfg px4 .y, setpoint := sx,
      out_min := -cfg.VELOCITY_LIMITS.y, out_max := cfg.VELOCITY_LIMITS.y,
      integral := 0, last_error := 0 }
  match strategy with
  | .constant_altitude =>
      ({ tunings := get_pid_gains cfg px4 .x, setpoint := sy,
         out_min := -cfg.VELOCITY_LIMITS.x, out_max := cfg.VELOCITY_LIMITS.x,
         integral := 0, last_error := 0 },
       py,
       { tunings := get_pid_gains cfg px4 .z, setpoint := cfg.MIN_DESCENT_HEIGHT,
         out_min := -cfg.MAX_RATE_OF_DESCENT, out_max := cfg.MAX_RATE_OF_DESCENT,
         integral := 0, last_error := 0 })
  | .constant_distance =>
      ({ tunings := get_pid_gains cfg px4 .x, setpoint := 0,
         out_min := 0, out_max := 0,
         integral := 0, last_error := 0 },
       py,
       { tunings := get_pid_gains cfg px4 .z, setpoint := sy,
         out_min := -cfg.VELOCITY_LIMITS.z, out_max := cfg.VELOCITY_LIMITS.z,
         integral := 0, last_error := 0 })

/-- `FrontViewTargetFollower.__init__`: selects the initial target lock
(the passed coordinates under `initial` mode, `Parameters.DESIRE_AIM`
otherwise), copies the strategy and distance, and runs `initialize_pids`. -/
def follower_init (cfg : Parameters) (px4 : PX4State)
    (initial_target_coords : ℚ × ℚ) : FollowerState :=
  let tc := if cfg.TARGET_POSITION_MODE = TargetMode.initial then
              initial_target_coords
            else cfg.DESIRE_AIM
  let pids := initialize_pids cfg px4 cfg.CONTROL_STRATEGY tc
  { control_strategy := cfg.CONTROL_STRATEGY,
    initial_target_coords := tc,
    default_distance := cfg.DEFAULT_DISTANCE,
    pid_x := pids.1, pid_y := pids.2.1, pid_z := pids.2.2,
    latest_velocities := none }

/-- `FrontViewTargetFollower.update_pid_gains`: refreshes the tunings of all
three PIDs from `get_pid_gains` (setpoints and limits untouched). -/
def update_pid_gains (cfg : Parameters) (px4 : PX4State) (f : FollowerState) :
    FollowerState :=
  { f with
    pid_x := { f.pid_x with tunings := get_pid_gains cfg px4 .x },
    pid_y := { f.pid_y with tunings := get_pid_gains cfg px4 .y },
    pid_z := { f.pid_z with tunings := get_pid_gains cfg px4 .z } }

/-- `FrontViewTargetFollower.apply_gimbal_corrections`: identity when the
camera is gimbaled, otherwise attitude correction from (pitch, roll) plus
the roll-induced radial term. -/
def apply_gimbal_corrections (cfg : Parameters) (env : MathEnv) (px4 : PX4State)
    (f : FollowerState) (tc : ℚ × ℚ) : ℚ × ℚ :=
  if cfg.IS_CAMERA_GIMBALED then tc
  else
    let pitch := px4.orientation.2.1
    let roll := px4.orientation.2.2
    let ax := tc.1 + f.default_distance * roll
    let ay := tc.2 - f.default_distance * pitch
    let r := env.sqrt (tc.1 ^ 2 + tc.2 ^ 2)
    (ax + r * env.cos roll, ay + r * env.sin roll)

/-- `FrontViewTargetFollower.apply_adjustment_factors`: distance-attenuated
bias correction added to both coordinates. -/
def apply_adjustment_factors (cfg : Parameters) (f : FollowerState)
    (a : ℚ × ℚ) : ℚ × ℚ :=
  let fx := cfg.BASE_ADJUSTMENT_FACTOR_X / (1 + cfg.ALTITUDE_FACTOR * f.default_distance)
  let fy := cfg.BASE_ADJUSTMENT_FACTOR_Y / (1 + cfg.ALTITUDE_FACTOR * f.default_distance)
  (a.1 + fx, a.2 + fy)

/-- The error terms of `calculate_velocity_commands`:
`error_x = self.pid_x.setpoint - adjusted_target_x` and
`error_y = self.pid_y.setpoint - adjusted_target_y`. -/
def compute_errors (f : FollowerState) (adj : ℚ × ℚ) : ℚ × ℚ :=
  (f.pid_x.setpoint - adj.1, f.pid_y.setpoint - adj.2)

/-- `FrontViewTargetFollower.control_descent_constant_altitude`: returns 0
when descending is disabled or the altitude is at or below
`MIN_DESCENT_HEIGHT`, else evaluates `pid_z(-current_altitude)`. -/
def control_descent_constant_altitude (cfg : Parameters) (px4 : PX4State)
    (pz : PIDState) : ℚ × PIDState :=
  if cfg.ENABLE_DESCEND_TO_TARGET = false then (0, pz)
  else if cfg.MIN_DESCENT_HEIGHT < px4.current_altitude then
    pid_call pz (-px4.current_altitude)
  else (0, pz)

/-- `FrontViewTargetFollower.control_descent_constant_distance`: evaluates
`pid_z(error_y)` above the floor, 0 at or below it. -/
def control_descent_constant_distance (cfg : Parameters) (px4 : PX4State)
    (pz : PIDState) (error_y : ℚ) : ℚ × PIDState :=
  if cfg.MIN_DESCENT_HEIGHT < px4.current_altitude then pid_call pz error_y
  else (0, pz)

/-- `FrontViewTargetFollower.calculate_velocity_constant_altitude`:
`vel_x = pid_x(error_y)`, `vel_y = pid_y(error_x)`, `vel_z` from the descent
controller; records the result in `latest_velocities`. -/
def calculate_velocity_constant_altitude (cfg : Parameters) (px4 : PX4State)
    (f : FollowerState) (error_x error_y : ℚ) : (ℚ × ℚ × ℚ) × FollowerState :=
  let rx := pid_call f.pid_x error_y
  let ry := pid_call f.pid_y error_x
  let rz := control_descent_constant_altitude cfg px4 f.pid_z
  ((rx.1, ry.1, rz.1),
   { f with pid_x := rx.2, pid_y := ry.2, pid_z := rz.2,
            latest_velocities := some (rx.1, ry.1, rz.1) })

/-- `FrontViewTargetFollower.calculate_velocity_constant_distance`:
`vel_x = 0`, `vel_y = pid_y(error_x)`, `vel_z` from the descent controller
fed `error_y`; records the result in `latest_velocities`. -/
def calculate_velocity_constant_distance (cfg : Parameters) (px4 : PX4State)
    (f : FollowerState) (error_x error_y : ℚ) : (ℚ × ℚ × ℚ) × FollowerState :=
  let ry := pid_call f.pid_y error_x
  let rz := control_descent_constant_distance cfg px4 f.pid_z error_y
  ((0, ry.1, rz.1),
   { f with pid_y := ry.2, pid_z := rz.2,
            latest_velocities := some (0, ry.1, rz.1) })

/-- `FrontViewTargetFollower.calculate_velocity_commands`: refresh gains,
apply gimbal and adjustment corrections, form the error terms, dispatch on
the control strategy. -/
def calculate_velocity_commands (cfg : Parameters) (env : MathEnv)
    (px4 : PX4State) (f : FollowerState) (tc : ℚ × ℚ) :
    (ℚ × ℚ × ℚ) × FollowerState :=
  let f1 := update_pid_gains cfg px4 f
  let adj := apply_adjustment_factors cfg f1 (apply_gimbal_corrections cfg env px4 f1 tc)
  let e := compute_errors f1 adj
  match f1.control_strategy with
  | .constant_altitude => calculate_velocity_constant_altitude cfg px4 f1 e.1 e.2
  | .constant_distance => calculate_velocity_constant_distance cfg px4 f1 e.1 e.2

/-- Fallible external collaborator calls made by the controller: the flight
link (`PX4InterfaceManager` awaits), MAVLink polling stop and video-capture
release.  An `Except.error` value models the call raising an exception. -/
structure LinkOps where
  connect : Except String Unit
  send_initial_setpoint : Except String Unit
  start_offboard_mode : Except String Unit
  stop_offboard_mode : Except String Unit
  send_body_velocity_commands : (ℚ × ℚ × ℚ) → Except String Unit
  stop_polling : Except String Unit
  release_video : Except String Unit

/-- Modelled from the spec: the observable state of `PX4InterfaceManager`
(`classes/px4_interface_manager.py` is not under `src/`): the last recorded
command re-sent by the setpoint path, and the setpoint slot written by
`update_setpoint`. -/
structure Px4IfState where
  last_command : ℚ × ℚ × ℚ
  setpoint : Option (ℚ × ℚ × ℚ)
deriving DecidableEq

/-- Modelled from the spec: `PX4InterfaceManager.update_setpoint` stores the
value it is given (here the `None` returned by `Follower.follow_target` is
`none`) into the interface's setpoint slot. -/
def update_setpoint (p : Px4IfState) (sp : Option (ℚ × ℚ × ℚ)) : Px4IfState :=
  { p with setpoint := sp }

/-- The orchestration flags of `AppController` that the embedded operations
read and write, plus the bbox last handed to the tracker. -/
structure AppState where
  tracking_started : Bool
  segmentation_active : Bool
  following_active : Bool
  follower : Option FollowerState
  setpoint_sender : Bool
  tracker_bbox : Option (Int × Int × Int × Int)
deriving DecidableEq

/-- `FrontViewTargetFollower.follow_target`: computes the velocity command,
dispatches it over the flight link (failure propagates), and — having no
return statement — returns Python `None` (`none`).  The third component is
the trace of commands sent over the link by this call. -/
def follower_follow_target (cfg : Parameters) (env : MathEnv) (px4 : PX4State)
    (link : LinkOps) (f : FollowerState) (tc : ℚ × ℚ) :
    Except String (Option (ℚ × ℚ × ℚ) × FollowerState × List (ℚ × ℚ × ℚ)) :=
  let r := calculate_velocity_commands cfg env px4 f tc
  match link.send_body_velocity_commands r.1 with
  | .error e => .error e
  | .ok _ => .ok (none, r.2, [r.1])

/-- `AppController.follow_target`: when tracking and following, binds the
result of `Follower.follow_target`, passes it to
`px4_interface.update_setpoint`, then sends
`px4_interface.last_command` over the link again; returns True.  Otherwise
returns False.  No step is wrapped in a try, so any link failure
propagates.  The last component is the trace of commands sent. -/
def app_follow_target (cfg : Parameters) (env : MathEnv) (px4 : PX4State)
    (link : LinkOps) (s : AppState) (pif : Px4IfState) (tc : ℚ × ℚ) :
    Except String (Bool × AppState × Px4IfState × List (ℚ × ℚ × ℚ)) :=
  if s.tracking_started && s.following_active then
    match s.follower with
    | none => .error "AttributeError: NoneType has no attribute follow_target"
    | some f =>
        match follower_follow_target cfg env px4 link f tc with
        | .error e => .error e
        | .ok (sp, f2, sends) =>
            let pif2 := update_setpoint pif sp
            match link.send_body_velocity_commands pif2.last_command with
            | .error e => .error e
            | .ok _ =>
                .ok (true, { s with follower := some f2 }, pif2,
                     sends ++ [pif2.last_command])
  else
    .ok (false, s, pif, [])

/-- The control-relevant skeleton of `AppController.update_loop`: when
tracking is started and the tracker update succeeded and following is
active, it awaits `self.follow_target()` with no surrounding try, so a
failure there is the result of the whole tick.  Drawing, telemetry, OSD and
streaming side effects are outside the embedded state. -/
def update_loop (cfg : Parameters) (env : MathEnv) (px4 : PX4State)
    (link : LinkOps) (tracker_ok : Bool) (tc : ℚ × ℚ)
    (s : AppState) (pif : Px4IfState) :
    Except String (AppState × Px4IfState × List (ℚ × ℚ × ℚ)) :=
  if s.tracking_started then
    if tracker_ok then
      if s.following_active then
        match app_follow_target cfg env px4 link s pif tc with
        | .error e => .error e
        | .ok (_, s2, p2, sends) => .ok (s2, p2, sends)
      else .ok (s, pif, [])
    else .ok (s, pif, [])
  else .ok (s, pif, [])

/-- A `{"steps": [...], "errors": [...]}` result dict. -/
structure StepResult where
  steps : List String
  errors : List String
deriving DecidableEq

/-- `AppController.connect_px4`: when not following, runs connect /
construct `Follower` / send initial setpoint / start offboard inside one
try.  The `Follower` is assigned to `self.follower` as soon as it is
constructed; an exception in a later step leaves that assignment in place,
appends the error, and appends no step string. -/
def connect_px4 (cfg : Parameters) (px4 : PX4State) (link : LinkOps)
    (tracker_center : ℚ × ℚ) (s : AppState) : AppState × StepResult :=
  if s.following_active = false then
    match link.connect with
    | .error e => (s, ⟨[], ["Failed to connect/start offboard mode: " ++ e]⟩)
    | .ok _ =>
        let coords := if cfg.TARGET_POSITION_MODE = TargetMode.initial then
                        tracker_center
                      else cfg.DESIRE_AIM
        let s1 := { s with follower := some (follower_init cfg px4 coords) }
        match link.send_initial_setpoint with
        | .error e => (s1, ⟨[], ["Failed to connect/start offboard mode: " ++ e]⟩)
        | .ok _ =>
            match link.start_offboard_mode with
            | .error e => (s1, ⟨[], ["Failed to connect/start offboard mode: " ++ e]⟩)
            | .ok _ =>
                ({ s1 with following_active := true },
                 ⟨["Offboard mode started."], []⟩)
  else
    (s, ⟨["Follow mode already active."], []⟩)

/-- `AppController.cancel_activities`: clears tracking and segmentation and
stops and joins a running setpoint sender. -/
def cancel_activities (s : AppState) : AppState :=
  { s with tracking_started := false, segmentation_active := false,
           setpoint_sender := false }

/-- `AppController.toggle_tracking`: when idle, accepts the selected ROI
only if its width and height are positive; when tracking, delegates to
`cancel_activities`. -/
def toggle_tracking (s : AppState) (bbox : Int × Int × Int × Int) : AppState :=
  if s.tracking_started = false then
    if 0 < bbox.2.2.1 ∧ 0 < bbox.2.2.2 then
      { s with tracking_started := true, tracker_bbox := some bbox }
    else s
  else cancel_activities s

/-- `AppController.start_tracking`: when idle, hands the bbox to the tracker
and sets `tracking_started` with no width/height validation; when already
tracking, does nothing. -/
def start_tracking (s : AppState) (bbox : Int × Int × Int × Int) : AppState :=
  if s.tracking_started = false then
    { s with tracking_started := true, tracker_bbox := some bbox }
  else s

/-- Which cleanup steps of `shutdown` actually ran to completion. -/
structure ShutdownTrace where
  polling_stopped : Bool
  offboard_stopped : Bool
  sender_stopped : Bool
  video_released : Bool
deriving DecidableEq

/-- `AppController.shutdown`: all cleanup steps run inside a single try —
stop MAVLink polling (when enabled), stop offboard mode and the setpoint
sender when following, release the video handler.  The first failing step
jumps to the except clause, recording the error and skipping the remaining
steps; on full success the single step string is recorded. -/
def shutdown (cfg : Parameters) (link : LinkOps) (s : AppState) :
    AppState × StepResult × ShutdownTrace :=
  let tr0 : ShutdownTrace := ⟨false, false, false, false⟩
  match (if cfg.mavlink_enabled then link.stop_polling else .ok ()) with
  | .error e => (s, ⟨[], ["Error during shutdown: " ++ e]⟩, tr0)
  | .ok _ =>
    let tr1 := { tr0 with polling_stopped := cfg.mavlink_enabled }
    if s.following_active then
      match link.stop_offboard_mode with
      | .error e => (s, ⟨[], ["Error during shutdown: " ++ e]⟩, tr1)
      | .ok _ =>
        let s2 := { s with setpoint_sender := false, following_active := false }
        let tr2 := { tr1 with offboard_stopped := true, sender_stopped := s.setpoint_sender }
        match link.release_video with
        | .error e => (s2, ⟨[], ["Error during shutdown: " ++ e]⟩, tr2)
        | .ok _ => (s2, ⟨["Shutdown complete."], []⟩,
                    { tr2 with video_released := true })
    else
      match link.release_video with
      | .error e => (s, ⟨[], ["Error during shutdown: " ++ e]⟩, tr1)
      | .ok _ => (s, ⟨["Shutdown complete."], []⟩,
                  { tr1 with video_released := true })

/-! Helper lemmas about the PID evaluation and the descent controllers. -/

theorem pid_call_out_bounds (s : PIDState) (e : ℚ) (h : s.out_min ≤ s.out_max) :
    s.out_min ≤ (pid_call s e).1 ∧ (pid_call s e).1 ≤ s.out_max := by
  unfold pid_call
  split
  · exact ⟨le_rfl, h⟩
  · split
    · exact ⟨h, le_rfl⟩
    · rename_i h1 h2
      exact ⟨le_of_not_lt h1, le_of_not_lt h2⟩

theorem pid_call_state_cases (s : PIDState) (e : ℚ) :
    (pid_call s e).2 = { s with last_error := e } ∨
    (pid_call s e).2 = { s with integral := s.integral + s.tunings.i * e, last_error := e } := by
  unfold pid_call
  split
  · exact Or.inl rfl
  · split
    · exact Or.inl rfl
    · exact Or.inr rfl

theorem pid_call_setpoint (s : PIDState) (e : ℚ) :
    (pid_call s e).2.setpoint = s.setpoint := by
  rcases pid_call_state_cases s e with h | h <;> rw [h]

theorem pid_call_out_min (s : PIDState) (e : ℚ) :
    (pid_call s e).2.out_min = s.out_min := by
  rcases pid_call_state_cases s e with h | h <;> rw [h]

theorem pid_call_out_max (s : PIDState) (e : ℚ) :
    (pid_call s e).2.out_max = s.out_max := by
  rcases pid_call_state_cases s e with h | h <;> rw [h]

theorem cdca_state_cases (cfg : Parameters) (px4 : PX4State) (pz : PIDState) :
    (control_descent_constant_altitude cfg px4 pz).2 = pz ∨
    (control_descent_constant_altitude cfg px4 pz).2 = (pid_call pz (-px4.current_altitude)).2 := by
  unfold control_descent_constant_altitude
  split
  · exact Or.inl rfl
  · split
    · exact Or.inr rfl
    · exact Or.inl rfl

theorem cdcd_state_cases (cfg : Parameters) (px4 : PX4State) (pz : PIDState) (ey : ℚ) :
    (control_descent_constant_distance cfg px4 pz ey).2 = pz ∨
    (control_descent_constant_distance cfg px4 pz ey).2 = (pid_call pz ey).2 := by
  unfold control_descent_constant_distance
  split
  · exact Or.inr rfl
  · exact Or.inl rfl

theorem cdca_out_bounds (cfg : Parameters) (px4 : PX4State) (pz : PIDState)
    (hmin : pz.out_min ≤ 0) (hmax : 0 ≤ pz.out_max) :
    pz.out_min ≤ (control_descent_constant_altitude cfg px4 pz).1 ∧
    (control_descent_constant_altitude cfg px4 pz).1 ≤ pz.out_max := by
  unfold control_descent_constant_altitude
  split
  · exact ⟨hmin, hmax⟩
  · split
    · exact pid_call_out_bounds pz _ (le_trans hmin hmax)
    · exact ⟨hmin, hmax⟩

theorem cdcd_out_bounds (cfg : Parameters) (px4 : PX4State) (pz : PIDState) (ey : ℚ)
    (hmin : pz.out_min ≤ 0) (hmax : 0 ≤ pz.out_max) :
    pz.out_min ≤ (control_descent_constant_distance cfg px4 pz ey).1 ∧
    (control_descent_constant_distance cfg px4 pz ey).1 ≤ pz.out_max := by
  unfold control_descent_constant_distance
  split
  · exact pid_call_out_bounds pz _ (le_trans hmin hmax)
  · exact ⟨hmin, hmax⟩

/-- The per-session limit shape of the three PID controllers: what
`initialize_pids` configures for the session's strategy. -/
def limits_configured (cfg : Parameters) (f : FollowerState) : Prop :=
  f.control_strategy = cfg.CONTROL_STRATEGY ∧
  f.pid_y.out_min = -cfg.VELOCITY_LIMITS.y ∧
  f.pid_y.out_max = cfg.VELOCITY_LIMITS.y ∧
  (cfg.CONTROL_STRATEGY = Strategy.constant_altitude →
     f.pid_x.out_min = -cfg.VELOCITY_LIMITS.x ∧
     f.pid_x.out_max = cfg.VELOCITY_LIMITS.x ∧
     f.pid_z.out_min = -cfg.MAX_RATE_OF_DESCENT ∧
     f.pid_z.out_max = cfg.MAX_RATE_OF_DESCENT) ∧
  (cfg.CONTROL_STRATEGY = Strategy.constant_distance →
     f.pid_z.out_min = -cfg.VELOCITY_LIMITS.z ∧
     f.pid_z.out_max = cfg.VELOCITY_LIMITS.z)

instance (cfg : Parameters) (f : FollowerState) : Decidable (limits_configured cfg f) := by
  unfold limits_configured; infer_instance

theorem follower_init_limits (cfg : Parameters) (px4 : PX4State) (coords : ℚ × ℚ) :
    limits_configured cfg (follower_init cfg px4 coords) := by
  unfold limits_configured follower_init initialize_pids
  cases h : cfg.CONTROL_STRATEGY <;> simp [h]

/-- The error pair formed inside `calculate_velocity_commands` after gain
refresh, gimbal correction and adjustment trim (a proof-side abbreviation
of the corresponding composition in the source). -/
def step_errors (cfg : Parameters) (env : MathEnv) (px4 : PX4State)
    (f : FollowerState) (tc : ℚ × ℚ) : ℚ × ℚ :=
  compute_errors (update_pid_gains cfg px4 f)
    (apply_adjustment_factors cfg (update_pid_gains cfg px4 f)
      (apply_gimbal_corrections cfg env px4 (update_pid_gains cfg px4 f) tc))

theorem cvc_dispatch_ca (cfg : Parameters) (env : MathEnv) (px4 : PX4State)
    (f : FollowerState) (tc : ℚ × ℚ)
    (hs : f.control_strategy = Strategy.constant_altitude) :
    calculate_velocity_commands cfg env px4 f tc =
      calculate_velocity_constant_altitude cfg px4 (update_pid_gains cfg px4 f)
        (step_errors cfg env px4 f tc).1 (step_errors cfg env px4 f tc).2 := by
  simp only [calculate_velocity_commands, step_errors, update_pid_gains, hs]

theorem cvc_dispatch_cd (cfg : Parameters) (env : MathEnv) (px4 : PX4State)
    (f : FollowerState) (tc : ℚ × ℚ)
    (hs : f.control_strategy = Strategy.constant_distance) :
    calculate_velocity_commands cfg env px4 f tc =
      calculate_velocity_constant_distance cfg px4 (update_pid_gains cfg px4 f)
        (step_errors cfg env px4 f tc).1 (step_errors cfg env px4 f tc).2 := by
  simp only [calculate_velocity_commands, step_errors, update_pid_gains, hs]

theorem cvc_limits_preserved (cfg : Parameters) (env : MathEnv) (px4 : PX4State)
    (f : FollowerState) (tc : ℚ × ℚ) (h : limits_configured cfg f) :
    limits_configured cfg (calculate_velocity_commands cfg env px4 f tc).2 := by
  obtain ⟨hstrat, hymin, hymax, hca, hcd⟩ := h
  cases hc : cfg.CONTROL_STRATEGY
  case constant_altitude =>
    obtain ⟨hxmin, hxmax, hzmin, hzmax⟩ := hca hc
    have hs : f.control_strategy = Strategy.constant_altitude := hstrat.trans hc
    rw [cvc_dispatch_ca cfg env px4 f tc hs]
    simp only [limits_configured, calculate_velocity_constant_altitude]
    refine ⟨hstrat, ?_, ?_, fun _ => ⟨?_, ?_, ?_, ?_⟩, fun hd2 => ?_⟩
    · rw [pid_call_out_min]; exact hymin
    · rw [pid_call_out_max]; exact hymax
    · rw [pid_call_out_min]; exact hxmin
    · rw [pid_call_out_max]; exact hxmax
    · rcases cdca_state_cases cfg px4 (update_pid_gains cfg px4 f).pid_z with h2 | h2
      · rw [h2]; exact hzmin
      · rw [h2, pid_call_out_min]; exact hzmin
    · rcases cdca_state_cases cfg px4 (update_pid_gains cfg px4 f).pid_z with h2 | h2
      · rw [h2]; exact hzmax
      · rw [h2, pid_call_out_max]; exact hzmax
    · rw [hc] at hd2
      exact absurd hd2 (by decide)
  case constant_distance =>
    obtain ⟨hzmin, hzmax⟩ := hcd hc
    have hs : f.control_strategy = Strategy.constant_distance := hstrat.trans hc
    rw [cvc_dispatch_cd cfg env px4 f tc hs]
    simp only [limits_configured, calculate_velocity_constant_distance]
    refine ⟨hstrat, ?_, ?_, fun hd2 => ?_, fun _ => ⟨?_, ?_⟩⟩
    · rw [pid_call_out_min]; exact hymin
    · rw [pid_call_out_max]; exact hymax
    · rw [hc] at hd2
      exact absurd hd2 (by decide)
    · rcases cdcd_state_cases cfg px4 (update_pid_gains cfg px4 f).pid_z
          (step_errors cfg env px4 f tc).2 with h2 | h2
      · rw [h2]; exact hzmin
      · rw [h2, pid_call_out_min]; exact hzmin
    · rcases cdcd_state_cases cfg px4 (update_pid_gains cfg px4 f).pid_z
          (step_errors cfg env px4 f tc).2 with h2 | h2
      · rw [h2]; exact hzmax
      · rw [h2, pid_call_out_max]; exact hzmax

/-! Concrete sample data used by witnesses and counterexamples. -/

def gains1 : Gains := ⟨1, 1, 1⟩

def axisGains1 : AxisGains := ⟨gains1, gains1, gains1⟩

def gainsLow : Gains := ⟨2, 0, 0⟩

def gainsHigh : Gains := ⟨3, 0, 0⟩

def axisGainsLow : AxisGains := ⟨gainsLow, gainsLow, gainsLow⟩

def axisGainsHigh : AxisGains := ⟨gainsHigh, gainsHigh, gainsHigh⟩

def cfgA : Parameters :=
  { CONTROL_STRATEGY := .constant_altitude,
    TARGET_POSITION_MODE := .initial,
    DESIRE_AIM := (0, 0),
    VELOCITY_LIMITS := ⟨2, 3, 4⟩,
    MAX_RATE_OF_DESCENT := 1,
    MIN_DESCENT_HEIGHT := 5,
    ENABLE_DESCEND_TO_TARGET := true,
    ENABLE_GAIN_SCHEDULING := false,
    ALTITUDE_GAIN_SCHEDULE := [],
    PID_GAINS := axisGains1,
    IS_CAMERA_GIMBALED := true,
    BASE_ADJUSTMENT_FACTOR_X := 0,
    BASE_ADJUSTMENT_FACTOR_Y := 0,
    ALTITUDE_FACTOR := 0,
    DEFAULT_DISTANCE := 1,
    mavlink_enabled := true }

def cfgD : Parameters := { cfgA with CONTROL_STRATEGY := .constant_distance }

def cfgSched : Parameters :=
  { cfgA with ENABLE_GAIN_SCHEDULING := true,
              ALTITUDE_GAIN_SCHEDULE := [((0, 10), axisGainsLow), ((10, 20), axisGainsHigh)] }

def envId : MathEnv := ⟨fun _ => 0, fun _ => 1, fun _ => 0⟩

def px4High : PX4State := ⟨10, (0, 0, 0), none⟩

def px4Floor : PX4State := ⟨5, (0, 0, 0), none⟩

def px4Below : PX4State := ⟨3, (0, 0, 0), none⟩

def pifA : Px4IfState := ⟨(9, 9, 9), none⟩

def linkOk : LinkOps :=
  ⟨.ok (), .ok (), .ok (), .ok (), fun _ => .ok (), .ok (), .ok ()⟩

def linkSendFail : LinkOps :=
  { linkOk with send_body_velocity_commands := fun _ => .error "link send failed" }

def linkOffboardFail : LinkOps :=
  { linkOk with start_offboard_mode := .error "offboard denied" }

def linkPollFail : LinkOps :=
  { linkOk with stop_polling := .error "poll stop failed" }

def linkStopOffboardFail : LinkOps :=
  { linkOk with stop_offboard_mode := .error "stop offboard failed" }

def fA : FollowerState := follower_init cfgA px4High (0, 0)

def sIdle : AppState := ⟨false, false, false, none, false, none⟩

def sActive : AppState := ⟨true, false, true, some fA, true, none⟩

/-- C3: for every target coordinate pair and telemetry state, each velocity
component returned by `calculate_velocity_commands` lies within its
configured limits: under constant_altitude |vel_x| ≤ VELOCITY_LIMITS.x,
|vel_y| ≤ VELOCITY_LIMITS.y and |vel_z| ≤ MAX_RATE_OF_DESCENT; under
constant_distance vel_x = 0, |vel_y| ≤ VELOCITY_LIMITS.y and
|vel_z| ≤ VELOCITY_LIMITS.z — for arbitrarily large error inputs.  The
`limits_configured` hypothesis is the limit shape `initialize_pids` gives
every session (last two conjuncts: it is established at construction and
preserved by every step). -/
theorem calculate_velocity_commands_bounded (cfg : Parameters) (env : MathEnv)
    (px4 : PX4State) (f : FollowerState) (tc : ℚ × ℚ)
    (hx : 0 ≤ cfg.VELOCITY_LIMITS.x) (hy : 0 ≤ cfg.VELOCITY_LIMITS.y)
    (hz : 0 ≤ cfg.VELOCITY_LIMITS.z) (hd : 0 ≤ cfg.MAX_RATE_OF_DESCENT)
    (hcfg : limits_configured cfg f) :
    (cfg.CONTROL_STRATEGY = Strategy.constant_altitude →
       |(calculate_velocity_commands cfg env px4 f tc).1.1| ≤ cfg.VELOCITY_LIMITS.x ∧
       |(calculate_velocity_commands cfg env px4 f tc).1.2.1| ≤ cfg.VELOCITY_LIMITS.y ∧
       |(calculate_velocity_commands cfg env px4 f tc).1.2.2| ≤ cfg.MAX_RATE_OF_DESCENT) ∧
    (cfg.CONTROL_STRATEGY = Strategy.constant_distance →
       (calculate_velocity_commands cfg env px4 f tc).1.1 = 0 ∧
       |(calculate_velocity_commands cfg env px4 f tc).1.2.1| ≤ cfg.VELOCITY_LIMITS.y ∧
       |(calculate_velocity_commands cfg env px4 f tc).1.2.2| ≤ cfg.VELOCITY_LIMITS.z) ∧
    limits_configured cfg (calculate_velocity_commands cfg env px4 f tc).2 ∧
    limits_configured cfg (follower_init cfg px4 tc) := by
  obtain ⟨hstrat, hymin, hymax, hca, hcd⟩ := hcfg
  refine ⟨?_, ?_,
    cvc_limits_preserved cfg env px4 f tc ⟨hstrat, hymin, hymax, hca, hcd⟩,
    follower_init_limits cfg px4 tc⟩
  · intro hc
    obtain ⟨hxmin, hxmax, hzmin, hzmax⟩ := hca hc
    have hs : f.control_strategy = Strategy.constant_altitude := hstrat.trans hc
    rw [cvc_dispatch_ca cfg env px4 f tc hs]
    simp only [calculate_velocity_constant_altitude]
    have hbx := pid_call_out_bounds (update_pid_gains cfg px4 f).pid_x
      (step_errors cfg env px4 f tc).2 (by rw [show (update_pid_gains cfg px4 f).pid_x.out_min = -cfg.VELOCITY_LIMITS.x from hxmin, show (update_pid_gains cfg px4 f).pid_x.out_max = cfg.VELOCITY_LIMITS.x from hxmax]; linarith)
    have hby := pid_call_out_bounds (update_pid_gains cfg px4 f).pid_y
      (step_errors cfg env px4 f tc).1 (by rw [show (update_pid_gains cfg px4 f).pid_y.out_min = -cfg.VELOCITY_LIMITS.y from hymin, show (update_pid_gains cfg px4 f).pid_y.out_max = cfg.VELOCITY_LIMITS.y from hymax]; linarith)
    have hbz := cdca_out_bounds cfg px4 (update_pid_gains cfg px4 f).pid_z
      (by rw [show (update_pid_gains cfg px4 f).pid_z.out_min = -cfg.MAX_RATE_OF_DESCENT from hzmin]; linarith)
      (by rw [show (update_pid_gains cfg px4 f).pid_z.out_max = cfg.MAX_RATE_OF_DESCENT from hzmax]; linarith)
    rw [show (update_pid_gains cfg px4 f).pid_x.out_min = -cfg.VELOCITY_LIMITS.x from hxmin,
        show (update_pid_gains cfg px4 f).pid_x.out_max = cfg.VELOCITY_LIMITS.x from hxmax] at hbx
    rw [show (update_pid_gains cfg px4 f).pid_y.out_min = -cfg.VELOCITY_LIMITS.y from hymin,
        show (update_pid_gains cfg px4 f).pid_y.out_max = cfg.VELOCITY_LIMITS.y from hymax] at hby
    rw [show (update_pid_gains cfg px4 f).pid_z.out_min = -cfg.MAX_RATE_OF_DESCENT from hzmin,
        show (update_pid_gains cfg px4 f).pid_z.out_max = cfg.MAX_RATE_OF_DESCENT from hzmax] at hbz
    exact ⟨abs_le.mpr hbx, abs_le.mpr hby, abs_le.mpr hbz⟩
  · intro hc
    obtain ⟨hzmin, hzmax⟩ := hcd hc
    have hs : f.control_strategy = Strategy.constant_distance := hstrat.trans hc
    rw [cvc_dispatch_cd cfg env px4 f tc hs]
    simp only [calculate_velocity_constant_distance]
    have hby := pid_call_out_bounds (update_pid_gains cfg px4 f).pid_y
      (step_errors cfg env px4 f tc).1 (by rw [show (update_pid_gains cfg px4 f).pid_y.out_min = -cfg.VELOCITY_LIMITS.y from hymin, show (update_pid_gains cfg px4 f).pid_y.out_max = cfg.VELOCITY_LIMITS.y from hymax]; linarith)
    have hbz := cdcd_out_bounds cfg px4 (update_pid_gains cfg px4 f).pid_z
      (step_errors cfg env px4 f tc).2
      (by rw [show (update_pid_gains cfg px4 f).pid_z.out_min = -cfg.VELOCITY_LIMITS.z from hzmin]; linarith)
      (by rw [show (update_pid_gains cfg px4 f).pid_z.out_max = cfg.VELOCITY_LIMITS.z from hzmax]; linarith)
    rw [show (update_pid_gains cfg px4 f).pid_y.out_min = -cfg.VELOCITY_LIMITS.y from hymin,
        show (update_pid_gains cfg px4 f).pid_y.out_max = cfg.VELOCITY_LIMITS.y from hymax] at hby
    rw [show (update_pid_gains cfg px4 f).pid_z.out_min = -cfg.VELOCITY_LIMITS.z from hzmin,
        show (update_pid_gains cfg px4 f).pid_z.out_max = cfg.VELOCITY_LIMITS.z from hzmax] at hbz
    exact ⟨trivial, abs_le.mpr hby, abs_le.mpr hbz⟩

/-- Witness for C3 at a concrete configuration and a deliberately huge
error input. -/
theorem calculate_velocity_commands_bounded_witness :
    (0 ≤ cfgA.VELOCITY_LIMITS.x ∧ limits_configured cfgA fA) ∧
    |(calculate_velocity_commands cfgA envId px4High fA (1000, -1000)).1.1| ≤
      cfgA.VELOCITY_LIMITS.x :=
  ⟨⟨by decide, by decide⟩,
   (((calculate_velocity_commands_bounded cfgA envId px4High fA (1000, -1000)
      (by decide) (by decide) (by decide) (by decide) (by decide)).1) (by decide)).1⟩

/-- C4: the integral accumulator of a PID is not updated whenever the raw
output is clamped at either output limit, and the z-axis PID state
(integral included) is not touched while descent is halted at the altitude
floor (current_altitude ≤ MIN_DESCENT_HEIGHT), in both descent
controllers. -/
theorem pid_integral_frozen :
    (∀ (s : PIDState) (e : ℚ), pid_raw s e < s.out_min ∨ s.out_max < pid_raw s e →
       (pid_call s e).2.integral = s.integral) ∧
    (∀ (cfg : Parameters) (px4 : PX4State) (pz : PIDState),
       px4.current_altitude ≤ cfg.MIN_DESCENT_HEIGHT →
       (control_descent_constant_altitude cfg px4 pz).2 = pz) ∧
    (∀ (cfg : Parameters) (px4 : PX4State) (pz : PIDState) (ey : ℚ),
       px4.current_altitude ≤ cfg.MIN_DESCENT_HEIGHT →
       (control_descent_constant_distance cfg px4 pz ey).2 = pz) := by
  refine ⟨?_, ?_, ?_⟩
  · intro s e h
    unfold pid_call
    by_cases h1 : pid_raw s e < s.out_min
    · rw [if_pos h1]
    · rw [if_neg h1]
      rcases h with h | h
      · exact absurd h h1
      · rw [if_pos h]
  · intro cfg px4 pz hfloor
    unfold control_descent_constant_altitude
    split
    · rfl
    · rw [if_neg (not_lt.mpr hfloor)]
  · intro cfg px4 pz ey hfloor
    unfold control_descent_constant_distance
    rw [if_neg (not_lt.mpr hfloor)]

/-- A concrete PID state whose evaluation at error -1000 is clamped low. -/
def pidW : PIDState := ⟨⟨1, 1, 1⟩, 0, -1, 1, 0, 0⟩

/-- Witness for C4: a clamped evaluation keeps the integral at 0, and both
descent controllers leave the z PID untouched at the floor. -/
theorem pid_integral_frozen_witness :
    ((pid_call pidW (-1000)).2.integral = pidW.integral ∧
     (control_descent_constant_altitude cfgA px4Floor pidW).2 = pidW) ∧
    (control_descent_constant_distance cfgA px4Floor pidW 7).2 = pidW :=
  ⟨⟨pid_integral_frozen.1 pidW (-1000) (Or.inl (by norm_num [pid_raw, pidW])),
    pid_integral_frozen.2.1 cfgA px4Floor pidW (by decide)⟩,
   pid_integral_frozen.2.2 cfgA px4Floor pidW 7 (by decide)⟩

def fD : FollowerState := follower_init cfgD px4High (0, 0)

def px4Sched : PX4State := ⟨10, (0, 0, 0), some 10⟩

/-- C5: under constant_altitude with descent enabled, the returned vel_z is
0 whenever current_altitude ≤ MIN_DESCENT_HEIGHT (floor inclusive) and
equals the z PID evaluated at -current_altitude above the floor; the same
inclusive floor halt holds under constant_distance. -/
theorem descent_floor_inclusive (cfg : Parameters) (env : MathEnv) (px4 : PX4State)
    (f : FollowerState) (tc : ℚ × ℚ)
    (hen : cfg.ENABLE_DESCEND_TO_TARGET = true) :
    (f.control_strategy = Strategy.constant_altitude →
       (px4.current_altitude ≤ cfg.MIN_DESCENT_HEIGHT →
          (calculate_velocity_commands cfg env px4 f tc).1.2.2 = 0) ∧
       (cfg.MIN_DESCENT_HEIGHT < px4.current_altitude →
          (calculate_velocity_commands cfg env px4 f tc).1.2.2 =
            (pid_call (update_pid_gains cfg px4 f).pid_z (-px4.current_altitude)).1)) ∧
    (f.control_strategy = Strategy.constant_distance →
       px4.current_altitude ≤ cfg.MIN_DESCENT_HEIGHT →
       (calculate_velocity_commands cfg env px4 f tc).1.2.2 = 0) := by
  constructor
  · intro hs
    rw [cvc_dispatch_ca cfg env px4 f tc hs]
    simp only [calculate_velocity_constant_altitude]
    constructor
    · intro hfloor
      unfold control_descent_constant_altitude
      rw [if_neg (by simp [hen]), if_neg (not_lt.mpr hfloor)]
    · intro habove
      unfold control_descent_constant_altitude
      rw [if_neg (by simp [hen]), if_pos habove]
  · intro hs hfloor
    rw [cvc_dispatch_cd cfg env px4 f tc hs]
    simp only [calculate_velocity_constant_distance]
    unfold control_descent_constant_distance
    rw [if_neg (not_lt.mpr hfloor)]

/-- Witness for C5 at the exact floor altitude (equality case) for both
strategies. -/
theorem descent_floor_inclusive_witness :
    (px4Floor.current_altitude ≤ cfgA.MIN_DESCENT_HEIGHT ∧
     (calculate_velocity_commands cfgA envId px4Floor fA (0, 0)).1.2.2 = 0) ∧
    (calculate_velocity_commands cfgD envId px4Floor fD (0, 0)).1.2.2 = 0 :=
  ⟨⟨by decide,
    ((descent_floor_inclusive cfgA envId px4Floor fA (0, 0) (by decide)).1
      (by decide)).1 (by decide)⟩,
   (descent_floor_inclusive cfgD envId px4Floor fD (0, 0) (by decide)).2
     (by decide) (by decide)⟩

def f6 : FollowerState := follower_init cfgA px4High (0, 1)

/-- The gimbal- and trim-adjusted coordinates of the C6 counterexample step. -/
def adj6 : ℚ × ℚ :=
  apply_adjustment_factors cfgA (update_pid_gains cfgA px4High f6)
    (apply_gimbal_corrections cfgA envId px4High (update_pid_gains cfgA px4High f6) (0, 0))

/-- C6 counterexample: with initial target coordinates (0, 1), the error
pair computed by the step is NOT (setpoint_x - adj_x, setpoint_y - adj_y):
the source assigns `pid_y.setpoint = setpoint_x` and
`pid_x.setpoint = setpoint_y`, and then computes
`error_x = pid_x.setpoint - adj_x`, so the coordinates are crossed. -/
theorem error_terms_cross_counterexample :
    ¬ (step_errors cfgA envId px4High f6 (0, 0) = (0 - adj6.1, 1 - adj6.2)) := by
  norm_num [step_errors, compute_errors, update_pid_gains, apply_adjustment_factors,
    apply_gimbal_corrections, follower_init, initialize_pids, get_pid_gains, cfgA,
    axisGains1, gains1, f6, adj6, envId, px4High]

/-- C6 (amended): the error terms are
`error_x = pid_x.setpoint - adj_x` and `error_y = pid_y.setpoint - adj_y`,
where the setpoints are fixed at construction cross-wise — `pid_y.setpoint`
is the initial x-coordinate; `pid_x.setpoint` is the initial y-coordinate
under constant_altitude and 0 under constant_distance — and no control step
ever modifies them (the target lock is not updated after initialization). -/
theorem error_terms_amended (cfg : Parameters) (env : MathEnv) (px4 : PX4State)
    (f : FollowerState) (adj : ℚ × ℚ) (coords : ℚ × ℚ) (tc : ℚ × ℚ) :
    compute_errors f adj = (f.pid_x.setpoint - adj.1, f.pid_y.setpoint - adj.2) ∧
    (cfg.TARGET_POSITION_MODE = TargetMode.initial →
       (follower_init cfg px4 coords).pid_y.setpoint = coords.1 ∧
       (cfg.CONTROL_STRATEGY = Strategy.constant_altitude →
          (follower_init cfg px4 coords).pid_x.setpoint = coords.2) ∧
       (cfg.CONTROL_STRATEGY = Strategy.constant_distance →
          (follower_init cfg px4 coords).pid_x.setpoint = 0)) ∧
    ((calculate_velocity_commands cfg env px4 f tc).2.pid_x.setpoint = f.pid_x.setpoint ∧
     (calculate_velocity_commands cfg env px4 f tc).2.pid_y.setpoint = f.pid_y.setpoint) := by
  refine ⟨rfl, ?_, ?_⟩
  · intro hmode
    cases hc : cfg.CONTROL_STRATEGY <;>
      simp [follower_init, initialize_pids, hmode, hc]
  · cases hsc : f.control_strategy
    case constant_altitude =>
      rw [cvc_dispatch_ca cfg env px4 f tc hsc]
      simp only [calculate_velocity_constant_altitude]
      constructor
      · rw [pid_call_setpoint]; rfl
      · rw [pid_call_setpoint]; rfl
    case constant_distance =>
      rw [cvc_dispatch_cd cfg env px4 f tc hsc]
      simp only [calculate_velocity_constant_distance]
      constructor
      · rfl
      · rw [pid_call_setpoint]; rfl


/-- Witness for C6 (amended) at the counterexample configuration. -/
theorem error_terms_amended_witness :
    (cfgA.TARGET_POSITION_MODE = TargetMode.initial ∧
     (follower_init cfgA px4High (0, 1)).pid_y.setpoint = 0) ∧
    compute_errors f6 (0, 0) = (f6.pid_x.setpoint - 0, f6.pid_y.setpoint - 0) :=
  ⟨⟨by decide,
    ((error_terms_amended cfgA envId px4High f6 (0, 0) (0, 1) (0, 0)).2.1
      (by decide)).1⟩,
   (error_terms_amended cfgA envId px4High f6 (0, 0) (0, 1) (0, 0)).1⟩

/-- Non-overlap of the schedule intervals (syntactic, decidable form:
each pair of entries is ordered one way or the other). -/
def schedule_disjoint (sched : List ((ℚ × ℚ) × AxisGains)) : Prop :=
  sched.Pairwise (fun a b => a.1.2 ≤ b.1.1 ∨ b.1.2 ≤ a.1.1)

instance (sched : List ((ℚ × ℚ) × AxisGains)) : Decidable (schedule_disjoint sched) := by
  unfold schedule_disjoint; infer_instance

theorem find_schedule_gains_mem (sched : List ((ℚ × ℚ) × AxisGains)) (v lo hi : ℚ)
    (g : AxisGains) (hdisj : schedule_disjoint sched) (hmem : ((lo, hi), g) ∈ sched)
    (h1 : lo ≤ v) (h2 : v < hi) :
    find_schedule_gains sched v = some g := by
  induction sched with
  | nil => cases hmem
  | cons hd tl ih =>
      have hdisj2 := List.pairwise_cons.mp hdisj
      rcases List.mem_cons.mp hmem with heq | htl
      · rw [← heq]
        simp only [find_schedule_gains]
        rw [if_pos ⟨h1, h2⟩]
      · have hrel := hdisj2.1 _ htl
        obtain ⟨⟨hlo, hhi⟩, hg⟩ := hd
        simp only [find_schedule_gains]
        rw [if_neg ?_]
        · exact ih hdisj2.2 htl
        · rintro ⟨ha, hb⟩
          rcases hrel with hr | hr
          · exact absurd (lt_of_lt_of_le hb (le_trans hr h1)) (lt_irrefl v)
          · exact absurd (lt_of_lt_of_le h2 (le_trans hr ha)) (lt_irrefl v)

theorem find_schedule_gains_none (sched : List ((ℚ × ℚ) × AxisGains)) (v : ℚ)
    (h : ∀ lo hi g, ((lo, hi), g) ∈ sched → ¬(lo ≤ v ∧ v < hi)) :
    find_schedule_gains sched v = none := by
  induction sched with
  | nil => rfl
  | cons hd tl ih =>
      obtain ⟨⟨hlo, hhi⟩, hg⟩ := hd
      simp only [find_schedule_gains]
      rw [if_neg (h hlo hhi hg (List.mem_cons_self _ _))]
      exact ih (fun lo hi g hm => h lo hi g (List.mem_cons_of_mem _ hm))

theorem pid_call_tunings (s : PIDState) (e : ℚ) :
    (pid_call s e).2.tunings = s.tunings := by
  rcases pid_call_state_cases s e with h | h <;> rw [h]

/-- C7: with gain scheduling enabled and a scheduled telemetry value v,
`get_pid_gains` returns the gains of the disjoint schedule interval
[lower, upper) containing v — lower bound inclusive, so v = lower selects
that interval; it returns the static default table when the telemetry value
is unavailable or no interval contains v; and every control step leaves the
PID tunings equal to `get_pid_gains` of the current telemetry (the lookup
is re-evaluated each step, never cached). -/
theorem get_pid_gains_schedule_lookup :
    (∀ (cfg : Parameters) (px4 : PX4State) (axis : Axis) (v lo hi : ℚ) (g : AxisGains),
       cfg.ENABLE_GAIN_SCHEDULING = true → px4.sched_value = some v →
       schedule_disjoint cfg.ALTITUDE_GAIN_SCHEDULE →
       ((lo, hi), g) ∈ cfg.ALTITUDE_GAIN_SCHEDULE → lo ≤ v → v < hi →
       get_pid_gains cfg px4 axis = g.get axis) ∧
    (∀ (cfg : Parameters) (px4 : PX4State) (axis : Axis),
       px4.sched_value = none → get_pid_gains cfg px4 axis = cfg.PID_GAINS.get axis) ∧
    (∀ (cfg : Parameters) (px4 : PX4State) (axis : Axis) (v : ℚ),
       px4.sched_value = some v →
       (∀ lo hi g, ((lo, hi), g) ∈ cfg.ALTITUDE_GAIN_SCHEDULE → ¬(lo ≤ v ∧ v < hi)) →
       get_pid_gains cfg px4 axis = cfg.PID_GAINS.get axis) ∧
    (∀ (cfg : Parameters) (env : MathEnv) (px4 : PX4State) (f : FollowerState) (tc : ℚ × ℚ),
       (calculate_velocity_commands cfg env px4 f tc).2.pid_x.tunings =
         get_pid_gains cfg px4 Axis.x ∧
       (calculate_velocity_commands cfg env px4 f tc).2.pid_y.tunings =
         get_pid_gains cfg px4 Axis.y ∧
       (calculate_velocity_commands cfg env px4 f tc).2.pid_z.tunings =
         get_pid_gains cfg px4 Axis.z) := by
  refine ⟨?_, ?_, ?_, ?_⟩
  · intro cfg px4 axis v lo hi g hen hv hdisj hmem h1 h2
    simp only [get_pid_gains, hen, hv, if_true]
    rw [find_schedule_gains_mem cfg.ALTITUDE_GAIN_SCHEDULE v lo hi g hdisj hmem h1 h2]
  · intro cfg px4 axis hv
    by_cases hen : cfg.ENABLE_GAIN_SCHEDULING = true <;>
      simp [get_pid_gains, hen, hv]
  · intro cfg px4 axis v hv hnone
    by_cases hen : cfg.ENABLE_GAIN_SCHEDULING = true <;>
      simp [get_pid_gains, hen, hv, find_schedule_gains_none cfg.ALTITUDE_GAIN_SCHEDULE v hnone]
  · intro cfg env px4 f tc
    cases hsc : f.control_strategy
    case constant_altitude =>
      rw [cvc_dispatch_ca cfg env px4 f tc hsc]
      simp only [calculate_velocity_constant_altitude]
      refine ⟨?_, ?_, ?_⟩
      · rw [pid_call_tunings]; rfl
      · rw [pid_call_tunings]; rfl
      · rcases cdca_state_cases cfg px4 (update_pid_gains cfg px4 f).pid_z with h2 | h2
        · rw [h2]; rfl
        · rw [h2, pid_call_tunings]; rfl
    case constant_distance =>
      rw [cvc_dispatch_cd cfg env px4 f tc hsc]
      simp only [calculate_velocity_constant_distance]
      refine ⟨rfl, ?_, ?_⟩
      · rw [pid_call_tunings]; rfl
      · rcases cdcd_state_cases cfg px4 (update_pid_gains cfg px4 f).pid_z
            (step_errors cfg env px4 f tc).2 with h2 | h2
        · rw [h2]; rfl
        · rw [h2, pid_call_tunings]; rfl

/-- Witness for C7: telemetry value 10 sits at the exact lower bound of the
second interval [10, 20) of a two-interval schedule and selects that
interval's gains, not the preceding interval [0, 10). -/
theorem get_pid_gains_schedule_lookup_witness :
    (cfgSched.ENABLE_GAIN_SCHEDULING = true ∧
     px4Sched.sched_value = some 10 ∧
     schedule_disjoint cfgSched.ALTITUDE_GAIN_SCHEDULE) ∧
    get_pid_gains cfgSched px4Sched Axis.y = axisGainsHigh.get Axis.y :=
  ⟨⟨by decide, by decide, by decide⟩,
   get_pid_gains_schedule_lookup.1 cfgSched px4Sched Axis.y 10 10 20 axisGainsHigh
     (by decide) (by decide) (by decide) (by decide) (by decide) (by decide)⟩

def sFollowing : AppState := ⟨false, false, true, some fA, true, none⟩

/-- C1: a flight-link send failure inside the follow dispatch is NOT caught
by `update_loop`: on a tracking-and-following tick with a successful tracker
update, the link error becomes the result of the whole tick (no step of the
follow path is wrapped in a try/except in the source), contradicting the
claim that such failures are caught and reported inside the tick. -/
theorem update_loop_propagates_follow_failure :
    update_loop cfgA envId px4High linkSendFail true (0, 0) sActive pifA =
      .error "link send failed" := rfl

/-- C2 counterexample: with the offboard step failing after the `Follower`
was constructed, `connect_px4` leaves the partially constructed `Follower`
assigned (the follower reference differs from the pre-attempt `none`) and
lists no completed steps. -/
theorem connect_px4_retains_partial_follower :
    (connect_px4 cfgA px4High linkOffboardFail (0, 0) sIdle).1.follower ≠
      sIdle.follower ∧
    (connect_px4 cfgA px4High linkOffboardFail (0, 0) sIdle).2.steps = [] :=
  ⟨fun h => Option.noConfusion h, rfl⟩

/-- C2 (amended): starting from a non-following state, if any step of the
connect sequence fails then `following_active` is still False afterwards,
no step strings are listed, and the error is recorded in the result — but
the follower reference is either untouched (failure before construction) or
holds the partially constructed `Follower` (failure after construction); on
full success `following_active` becomes True with the single step string. -/
theorem connect_px4_failure_state (cfg : Parameters) (px4 : PX4State)
    (link : LinkOps) (center : ℚ × ℚ) (s : AppState)
    (hno : s.following_active = false) :
    ((connect_px4 cfg px4 link center s).2.errors = [] →
       (connect_px4 cfg px4 link center s).1.following_active = true ∧
       (connect_px4 cfg px4 link center s).2.steps = ["Offboard mode started."]) ∧
    ((connect_px4 cfg px4 link center s).2.errors ≠ [] →
       (connect_px4 cfg px4 link center s).1.following_active = false ∧
       (connect_px4 cfg px4 link center s).2.steps = [] ∧
       ((connect_px4 cfg px4 link center s).1.follower = s.follower ∨
        (connect_px4 cfg px4 link center s).1.follower =
          some (follower_init cfg px4
            (if cfg.TARGET_POSITION_MODE = TargetMode.initial then center
             else cfg.DESIRE_AIM)))) := by
  cases hc : link.connect
  case error e => simp [connect_px4, hno, hc]
  case ok u =>
    cases hi : link.send_initial_setpoint
    case error e => simp [connect_px4, hno, hc, hi]
    case ok u2 =>
      cases ho : link.start_offboard_mode
      case error e => simp [connect_px4, hno, hc, hi, ho]
      case ok u3 => simp [connect_px4, hno, hc, hi, ho]

/-- Witness for C2 (amended) at the offboard-step failure. -/
theorem connect_px4_failure_state_witness :
    (sIdle.following_active = false ∧
     (connect_px4 cfgA px4High linkOffboardFail (0, 0) sIdle).2.errors ≠ []) ∧
    (connect_px4 cfgA px4High linkOffboardFail (0, 0) sIdle).1.following_active = false ∧
    (connect_px4 cfgA px4High linkOffboardFail (0, 0) sIdle).2.steps = [] :=
  ⟨⟨rfl, fun h => List.noConfusion h⟩,
   ((connect_px4_failure_state cfgA px4High linkOffboardFail (0, 0) sIdle rfl).2
     (fun h => List.noConfusion h)).1,
   ((connect_px4_failure_state cfgA px4High linkOffboardFail (0, 0) sIdle rfl).2
     (fun h => List.noConfusion h)).2.1⟩

/-- C8 counterexample: the degenerate bbox (0, 0, 0, 0) is rejected by
`toggle_tracking` (state unchanged) but accepted by `start_tracking`, which
sets `tracking_started` to true — refuting the claim that `start_tracking`
has the same width/height precondition and remains Idle on degenerate
input. -/
theorem start_tracking_degenerate_counterexample :
    (start_tracking sIdle (0, 0, 0, 0)).tracking_started = true ∧
    toggle_tracking sIdle (0, 0, 0, 0) = sIdle :=
  ⟨rfl, rfl⟩

/-- C8 (amended): when not already tracking, `start_tracking` initializes
the tracker and sets `tracking_started` for EVERY bbox, performing no
width/height validation, whereas `toggle_tracking` leaves the state
unchanged for a degenerate bbox (width ≤ 0 or height ≤ 0). -/
theorem start_tracking_no_validation (s : AppState) (bbox : Int × Int × Int × Int)
    (h : s.tracking_started = false) :
    (start_tracking s bbox).tracking_started = true ∧
    (start_tracking s bbox).tracker_bbox = some bbox ∧
    (bbox.2.2.1 ≤ 0 ∨ bbox.2.2.2 ≤ 0 → toggle_tracking s bbox = s) := by
  refine ⟨?_, ?_, ?_⟩
  · simp [start_tracking, h]
  · simp [start_tracking, h]
  · intro hdeg
    have hcond : ¬(0 < bbox.2.2.1 ∧ 0 < bbox.2.2.2) := by
      rintro ⟨hw, hh⟩
      rcases hdeg with hd | hd
      · exact absurd hw (not_lt.mpr hd)
      · exact absurd hh (not_lt.mpr hd)
    simp [toggle_tracking, h, hcond]

/-- Witness for C8 (amended): a degenerate bbox flips `start_tracking` to
tracking while `toggle_tracking` refuses it. -/
theorem start_tracking_no_validation_witness :
    (sIdle.tracking_started = false) ∧
    (start_tracking sIdle (0, 0, 0, 5)).tracking_started = true ∧
    toggle_tracking sIdle (0, 0, 0, 5) = sIdle :=
  ⟨rfl, (start_tracking_no_validation sIdle (0, 0, 0, 5) rfl).1,
   (start_tracking_no_validation sIdle (0, 0, 0, 5) rfl).2.2 (Or.inl le_rfl)⟩

/-- C9 counterexample: with MAVLink polling enabled and its stop raising,
`shutdown` never attempts the video-release step (the remaining steps are
skipped), refuting step independence. -/
theorem shutdown_short_circuit_counterexample :
    (shutdown cfgA linkPollFail sFollowing).2.2.video_released = false ∧
    (shutdown cfgA linkPollFail sFollowing).2.1.errors ≠ [] :=
  ⟨rfl, fun h => List.noConfusion h⟩

/-- C9 (amended): `shutdown` runs its cleanup steps inside a single
exception scope: the first failing step records its error in the returned
result (nothing is raised) and the remaining steps are NOT attempted; on
full success every step runs and the single completion string is
reported. -/
theorem shutdown_single_try :
    (∀ (cfg : Parameters) (link : LinkOps) (s : AppState) (e : String),
       cfg.mavlink_enabled = true → link.stop_polling = .error e →
       shutdown cfg link s =
         (s, ⟨[], ["Error during shutdown: " ++ e]⟩, ⟨false, false, false, false⟩)) ∧
    (∀ (cfg : Parameters) (link : LinkOps) (s : AppState) (e : String),
       link.stop_polling = .ok () → s.following_active = true →
       link.stop_offboard_mode = .error e →
       (shutdown cfg link s).2.2.video_released = false ∧
       (shutdown cfg link s).2.1.errors = ["Error during shutdown: " ++ e] ∧
       (shutdown cfg link s).2.1.steps = [] ∧
       (shutdown cfg link s).1 = s) ∧
    (∀ (cfg : Parameters) (link : LinkOps) (s : AppState),
       link.stop_polling = .ok () → link.stop_offboard_mode = .ok () →
       link.release_video = .ok () →
       (shutdown cfg link s).2.1.errors = [] ∧
       (shutdown cfg link s).2.1.steps = ["Shutdown complete."] ∧
       (shutdown cfg link s).2.2.video_released = true) := by
  refine ⟨?_, ?_, ?_⟩
  · intro cfg link s e hm hp
    simp [shutdown, hm, hp]
  · intro cfg link s e hp hfo ho
    by_cases hm : cfg.mavlink_enabled = true <;>
      simp [shutdown, hm, hp, hfo, ho]
  · intro cfg link s hp ho hr
    by_cases hm : cfg.mavlink_enabled = true <;>
      by_cases hfo : s.following_active = true <;>
        simp [shutdown, hm, hfo, hp, ho, hr]

/-- Witness for C9 (amended): the failing-polling case at concrete data. -/
theorem shutdown_single_try_witness :
    (cfgA.mavlink_enabled = true ∧
     linkPollFail.stop_polling = .error "poll stop failed") ∧
    shutdown cfgA linkPollFail sFollowing =
      (sFollowing, ⟨[], ["Error during shutdown: " ++ "poll stop failed"]⟩,
       ⟨false, false, false, false⟩) :=
  ⟨⟨rfl, rfl⟩,
   shutdown_single_try.1 cfgA linkPollFail sFollowing "poll stop failed" rfl rfl⟩

/-- C10: on a tracking-and-following tick, `Follower.follow_target` sends
the computed command and returns `none` (Python None); `app_follow_target`
binds that value, hands it to `update_setpoint`, and then invokes the link
send a second time with `px4_interface.last_command` rather than the
command just computed — the tick's send trace is
[computed command, last_command]. -/
theorem app_follow_target_double_send (cfg : Parameters) (env : MathEnv)
    (px4 : PX4State) (link : LinkOps) (s : AppState) (pif : Px4IfState)
    (tc : ℚ × ℚ) (f : FollowerState)
    (htr : s.tracking_started = true) (hfo : s.following_active = true)
    (hf : s.follower = some f)
    (hsend : ∀ c, link.send_body_velocity_commands c = .ok ()) :
    follower_follow_target cfg env px4 link f tc =
      .ok (none, (calculate_velocity_commands cfg env px4 f tc).2,
           [(calculate_velocity_commands cfg env px4 f tc).1]) ∧
    app_follow_target cfg env px4 link s pif tc =
      .ok (true,
           { s with follower := some (calculate_velocity_commands cfg env px4 f tc).2 },
           { pif with setpoint := none },
           [(calculate_velocity_commands cfg env px4 f tc).1, pif.last_command]) := by
  have h1 : follower_follow_target cfg env px4 link f tc =
      .ok (none, (calculate_velocity_commands cfg env px4 f tc).2,
           [(calculate_velocity_commands cfg env px4 f tc).1]) := by
    unfold follower_follow_target
    simp [hsend]
  refine ⟨h1, ?_⟩
  unfold app_follow_target
  rw [htr, hfo]
  simp only [Bool.and_self, if_true, hf, h1, hsend]
  rfl

/-- Witness for C10 at concrete data: the second send carries
`pifA.last_command = (9, 9, 9)`, not the computed command. -/
theorem app_follow_target_double_send_witness :
    (sActive.tracking_started = true ∧ sActive.follower = some fA) ∧
    app_follow_target cfgA envId px4High linkOk sActive pifA (0, 0) =
      .ok (true,
           { sActive with
               follower := some (calculate_velocity_commands cfgA envId px4High fA (0, 0)).2 },
           { pifA with setpoint := none },
           [(calculate_velocity_commands cfgA envId px4High fA (0, 0)).1,
            pifA.last_command]) :=
  ⟨⟨rfl, rfl⟩,
   (app_follow_target_double_send cfgA envId px4High linkOk sActive pifA (0, 0) fA
     rfl rfl rfl (fun _ => rfl)).2⟩

end PixEagle
